import Mathlib

/-!
Verification of the pagination, search (filter/sort), inclusion and
relationship-mutation logic of a JSON:API server library
(`flask_restless`: `views/base.py`, `views/relationships.py`, `search.py`).

Each section embeds one component of the source shallowly: pure Lean
functions mirror the corresponding Python functions, with the request
state (query parameters, request body, SQLAlchemy session contents)
passed explicitly.  Backend queries are materialized as lists, and
resources are identified by their primary-key value, a natural number.
-/

/-! ## Pagination (`views/base.py`, `FetchCollection.get_data`) -/

/-- An error response produced when a request fails validation: `status`
is the HTTP status code of the response and `detail` the human-readable
detail string placed in the JSON:API error object.  `BadRequest`
exceptions raised by the views carry status 400. -/
structure ErrResp where
  status : Nat
  detail : String
deriving DecidableEq

/-- Default `max_page_size` of the view constructors (`FetchView.__init__`
and `APIBase.__init__` both declare `max_page_size=100`). -/
def defaultMaxPageSize : Int := 100

/-- Default `page_size` of the view constructors (`page_size=10`). -/
def defaultPageSize : Int := 10

/-- The page-parameter validation of `FetchCollection.get_data`
(base.py lines 1105-1114), checks in source order, each raising
`BadRequest` (a 400 response) with exactly the detail string of the
source.  Returns the first error hit, or `none` when all checks pass. -/
def validatePageParams (maxPageSize pageSize pageNumber : Int) : Option ErrResp :=
  if pageSize > maxPageSize then
    some ⟨400, "Page size must not exceed the server's maximum: " ++ toString maxPageSize⟩
  else if pageSize < 0 then
    some ⟨400, "Page size can not be negative"⟩
  else if pageNumber < 0 then
    some ⟨400, "Page number can not be negative"⟩
  else if pageSize = 0 ∧ pageNumber > 1 then
    some ⟨400, "Page number can not be used with with page size 0"⟩
  else
    none

/-- The pagination numbers and the page of items computed by
`FetchCollection.get_data` for a request that passed validation with a
positive page size (the `else` branch at base.py lines 1127-1138;
`APIBase._paginated` lines 1499-1515 perform the same computation). -/
structure PageResult (α : Type) where
  first : Nat
  last : Nat
  prev : Option Nat
  next : Option Nat
  items : List α
  numResults : Nat
deriving DecidableEq

/-- The `page_size > 0` branch of `FetchCollection.get_data` (base.py
lines 1127-1138), with the backend query materialized as the full result
list `xs`: `count` is `xs.length` and `query.limit(size).offset(o)` is
`(xs.drop o).take size`.  `int(math.ceil(num_results / page_size))` is
the exact ceiling `(total + size - 1) / size` on naturals.  `number` is
a natural here; the subtractions in `prev` and in the offset are guarded
by `number > 1` (respectively, used under the theorems' `1 ≤ number`
hypothesis), matching the Python integer arithmetic on that domain. -/
def paginate (xs : List α) (size number : Nat) : PageResult α :=
  let total := xs.length
  let last := if total = 0 then 1 else (total + size - 1) / size
  { first := 1
    last := last
    prev := if number > 1 then some (number - 1) else none
    next := if number < last then some (number + 1) else none
    items := (xs.drop ((number - 1) * size)).take size
    numResults := total }

/-- Exact ceiling division on naturals agrees with the rational ceiling:
this connects the source's `(total + size - 1) / size` to the
specification's `ceil(total / size)`. -/
theorem add_pred_div_eq_ceil (t s : Nat) (hs : 0 < s) :
    (t + s - 1) / s = ⌈(t : ℚ) / s⌉₊ := by
  have hsQ : (0 : ℚ) < s := by exact_mod_cast hs
  have key : ∀ c : Nat, (t + s - 1) / s ≤ c ↔ ⌈(t : ℚ) / s⌉₊ ≤ c := by
    intro c
    rw [Nat.ceil_le, div_le_iff₀ hsQ, ← Nat.ceilDiv_eq_add_pred_div,
      ceilDiv_le_iff_le_mul hs]
    constructor
    · intro h
      calc (t : ℚ) ≤ ((s * c : Nat) : ℚ) := by exact_mod_cast h
        _ = (c : ℚ) * s := by push_cast; ring
    · intro h
      have : (t : ℚ) ≤ ((s * c : Nat) : ℚ) := by push_cast; linarith
      exact_mod_cast this
  exact le_antisymm ((key _).2 le_rfl) ((key _).1 le_rfl)

/-- C1.  For a collection fetch with page size `size > 0` and page
number `number ≥ 1` over a result set `xs` (total `T = xs.length`), the
pagination computation yields `first = 1`; `last = ⌈T / size⌉` with the
special case `last = 1` when `T = 0`; `prev = number - 1` iff
`number > 1`, else none; `next = number + 1` iff `number < last`, else
none; and the returned items are exactly the slice
`[(number-1)*size, number*size)` of the result set.  In particular,
`T = 0` with `number = 1` yields `last = 1`, `prev = none`,
`next = none`. -/
theorem claim_C1_pagination (xs : List Nat) (size number : Nat)
    (hs : 0 < size) (hn : 1 ≤ number) :
    (paginate xs size number).first = 1 ∧
    (paginate xs size number).last =
      (if xs.length = 0 then 1 else ⌈(xs.length : ℚ) / size⌉₊) ∧
    (paginate xs size number).prev =
      (if 1 < number then some (number - 1) else none) ∧
    (paginate xs size number).next =
      (if number < (paginate xs size number).last then some (number + 1) else none) ∧
    (paginate xs size number).items =
      (xs.take (number * size)).drop ((number - 1) * size) ∧
    (xs = [] → number = 1 →
      (paginate xs size number).last = 1 ∧
      (paginate xs size number).prev = none ∧
      (paginate xs size number).next = none) := by
  refine ⟨rfl, ?_, rfl, rfl, ?_, ?_⟩
  · show (if xs.length = 0 then 1 else (xs.length + size - 1) / size) = _
    rcases Nat.eq_zero_or_pos xs.length with h | h
    · simp [h]
    · rw [if_neg (by omega), if_neg (by omega), add_pred_div_eq_ceil _ _ hs]
  · show (xs.drop ((number - 1) * size)).take size = _
    obtain ⟨k, rfl⟩ : ∃ k, number = k + 1 := ⟨number - 1, by omega⟩
    rw [List.take_drop]
    congr 1
    simp [Nat.succ_mul]
  · intro hxs hnum
    subst hxs hnum
    exact ⟨rfl, rfl, rfl⟩

/-- Witness for C1 at `xs = [10, 20, 30]`, `size = 2`, `number = 2`. -/
theorem claim_C1_pagination_witness :
    (0 : Nat) < 2 ∧ (1 : Nat) ≤ 2 ∧
    ((paginate [10, 20, 30] 2 2).first = 1 ∧
      (paginate [10, 20, 30] 2 2).last =
        (if ([10, 20, 30] : List Nat).length = 0 then 1
          else ⌈(([10, 20, 30] : List Nat).length : ℚ) / 2⌉₊) ∧
      (paginate [10, 20, 30] 2 2).prev = (if 1 < 2 then some (2 - 1) else none) ∧
      (paginate [10, 20, 30] 2 2).next =
        (if 2 < (paginate [10, 20, 30] 2 2).last then some (2 + 1) else none) ∧
      (paginate [10, 20, 30] 2 2).items =
        (([10, 20, 30] : List Nat).take (2 * 2)).drop ((2 - 1) * 2) ∧
      (([10, 20, 30] : List Nat) = [] → 2 = 1 →
        (paginate [10, 20, 30] 2 2).last = 1 ∧
        (paginate [10, 20, 30] 2 2).prev = none ∧
        (paginate [10, 20, 30] 2 2).next = none)) :=
  ⟨by decide, by decide, claim_C1_pagination [10, 20, 30] 2 2 (by decide) (by decide)⟩

/-- C10 (amendment base).  Whenever the requested page size exceeds the
configured maximum — even for a nonnegative requested size — the
validation fails with a 400 error whose detail names the server's
maximum; the constructor default for that maximum is 100. -/
theorem claim_C10_max_page_size (maxPageSize pageSize pageNumber : Int)
    (hnn : 0 ≤ pageSize) (h : maxPageSize < pageSize) :
    (∃ p, validatePageParams maxPageSize pageSize pageNumber =
      some ⟨400, p ++ toString maxPageSize⟩) ∧ defaultMaxPageSize = 100 := by
  refine ⟨⟨"Page size must not exceed the server's maximum: ", ?_⟩, rfl⟩
  simp only [validatePageParams]
  rw [if_pos h]

/-- Witness for C10 at `maxPageSize = 100`, `pageSize = 150`. -/
theorem claim_C10_max_page_size_witness :
    (0 : Int) ≤ 150 ∧ (100 : Int) < 150 ∧
    ((∃ p, validatePageParams 100 150 1 = some ⟨400, p ++ toString (100 : Int)⟩) ∧
      defaultMaxPageSize = 100) :=
  ⟨by decide, by decide, claim_C10_max_page_size 100 150 1 (by decide) (by decide)⟩

/-- C2 counterexample.  The claim says every request whose page number is
less than 1 — page number 0 included — fails with a pagination error; but
page number 0 with page size 10 passes the validation of
`FetchCollection.get_data` without any error. -/
theorem claim_C2_counterexample :
    (0 : Int) < 1 ∧ validatePageParams 100 10 0 = none :=
  ⟨by decide, by decide⟩

/-- C2 as amended.  The validation enforces `size ≥ 0` and `number ≥ 0`
(not `number ≥ 1`): a negative page size fails with the 400 error
"Page size can not be negative", a negative page number fails with the
400 error "Page number can not be negative", page size 0 with page
number above 1 fails, and page number 0 with a positive in-bounds page
size is accepted. -/
theorem claim_C2_pagination_validation (maxPageSize pageSize pageNumber : Int)
    (hmax : pageSize ≤ maxPageSize) :
    (pageSize < 0 →
      validatePageParams maxPageSize pageSize pageNumber =
        some ⟨400, "Page size can not be negative"⟩) ∧
    (0 ≤ pageSize → pageNumber < 0 →
      validatePageParams maxPageSize pageSize pageNumber =
        some ⟨400, "Page number can not be negative"⟩) ∧
    (pageSize = 0 → 1 < pageNumber →
      (validatePageParams maxPageSize pageSize pageNumber).isSome = true) ∧
    (0 < pageSize → pageNumber = 0 →
      validatePageParams maxPageSize pageSize pageNumber = none) := by
  refine ⟨?_, ?_, ?_, ?_⟩
  · intro h
    simp only [validatePageParams]
    rw [if_neg (by omega), if_pos h]
  · intro h0 h
    simp only [validatePageParams]
    rw [if_neg (by omega), if_neg (by omega), if_pos h]
  · intro h0 h
    simp only [validatePageParams]
    rw [if_neg (by omega), if_neg (by omega), if_neg (by omega),
      if_pos (by exact ⟨h0, h⟩)]
    rfl
  · intro h0 h
    simp only [validatePageParams]
    rw [if_neg (by omega), if_neg (by omega), if_neg (by omega),
      if_neg (by omega)]

/-- Witness for the amended C2, touching all four branches. -/
theorem claim_C2_pagination_validation_witness :
    ((-5 : Int) ≤ 100 ∧
      ((-5 : Int) < 0 →
        validatePageParams 100 (-5) 1 = some ⟨400, "Page size can not be negative"⟩) ∧
      ((0 : Int) ≤ -5 → (1 : Int) < 0 →
        validatePageParams 100 (-5) 1 = some ⟨400, "Page number can not be negative"⟩) ∧
      ((-5 : Int) = 0 → (1 : Int) < 1 →
        (validatePageParams 100 (-5) 1).isSome = true) ∧
      ((0 : Int) < -5 → (1 : Int) = 0 →
        validatePageParams 100 (-5) 1 = none)) ∧
    ((10 : Int) ≤ 100 ∧
      ((10 : Int) < 0 →
        validatePageParams 100 10 (-2) = some ⟨400, "Page size can not be negative"⟩) ∧
      ((0 : Int) ≤ 10 → (-2 : Int) < 0 →
        validatePageParams 100 10 (-2) = some ⟨400, "Page number can not be negative"⟩) ∧
      ((10 : Int) = 0 → (1 : Int) < -2 →
        (validatePageParams 100 10 (-2)).isSome = true) ∧
      ((0 : Int) < 10 → (-2 : Int) = 0 →
        validatePageParams 100 10 (-2) = none)) :=
  ⟨⟨by decide, claim_C2_pagination_validation 100 (-5) 1 (by decide)⟩,
    ⟨by decide, claim_C2_pagination_validation 100 10 (-2) (by decide)⟩⟩

/-- C3 counterexample.  Page size 0 with page number 2 does yield a 400
error, but its detail string is "Page number can not be used with with
page size 0" (capital P, doubled "with"), not the string "page number
can not be used with page size 0" asserted by the claim. -/
theorem claim_C3_counterexample :
    validatePageParams 100 0 2 =
      some ⟨400, "Page number can not be used with with page size 0"⟩ ∧
    "Page number can not be used with with page size 0" ≠
      "page number can not be used with page size 0" :=
  ⟨by decide, by decide⟩

/-- C3 as amended.  For every collection fetch whose page size parameter
is 0 and whose page number parameter is greater than 1, the response is
a 400 error whose detail string is "Page number can not be used with
with page size 0" (the string literal of base.py line 1114). -/
theorem claim_C3_page_size_zero (maxPageSize pageNumber : Int)
    (hmax : 0 ≤ maxPageSize) (h : 1 < pageNumber) :
    validatePageParams maxPageSize 0 pageNumber =
      some ⟨400, "Page number can not be used with with page size 0"⟩ := by
  simp only [validatePageParams]
  rw [if_neg (by omega), if_neg (by omega), if_neg (by omega),
    if_pos (by simp [h])]

/-- Witness for the amended C3 at `maxPageSize = 100`, `pageNumber = 2`. -/
theorem claim_C3_page_size_zero_witness :
    (0 : Int) ≤ 100 ∧ (1 : Int) < 2 ∧
    validatePageParams 100 0 2 =
      some ⟨400, "Page number can not be used with with page size 0"⟩ :=
  ⟨by decide, by decide, claim_C3_page_size_zero 100 2 (by decide) (by decide)⟩

/-! ## Filter compilation (`search.py`) -/

/-- A JSON scalar used as a filter literal (`dictionary.get('val')`).
A JSON `null` and a missing `val` key are indistinguishable in the
source (both give Python `None`), so the embedding carries the literal
as `Option JVal` with no null constructor. -/
inductive JVal where
  | jbool (b : Bool)
  | jnum (n : Int)
  | jstr (s : String)
deriving DecidableEq

/-- The queried SQLAlchemy model, for attribute resolution: `attrs`
lists the names for which `hasattr(model, name)` holds (columns,
relationships, hybrid attributes alike).  The embedding's schemas have
no temporal columns, so `string_to_datetime` is the identity and is
dropped. -/
structure ModelSchema where
  attrs : List String
deriving DecidableEq

/-- A client-supplied filter description, as parsed JSON
(`Filter.from_dictionary` routes on it): a dictionary with an `or` or
`and` key holding sub-dictionaries, else a leaf
`(name, op, val, field)` dictionary.  A leaf whose `name` key is
missing is outside this embedding: it makes `hasattr` raise
`TypeError`, reported as the generic "Unable to construct query" 400
rather than the unknown-field 400. -/
inductive FilterDict where
  | leaf (name : String) (op : String) (val : Option JVal) (field : Option String)
  | orJ (subs : List FilterDict)
  | andJ (subs : List FilterDict)

/-- The `Filter`/`ConjunctionFilter`/`DisjunctionFilter` objects built
by `Filter.from_dictionary` (search.py lines 151-279). -/
inductive CompiledFilter where
  | basic (fieldname : String) (operator : String) (argument : Option JVal)
      (otherfield : Option String)
  | conj (subs : List CompiledFilter)
  | disj (subs : List CompiledFilter)

mutual

/-- `Filter.from_dictionary` (search.py lines 191-249): a leaf checks
`hasattr(model, fieldname)` and raises `UnknownField(fieldname)` — the
error value here — when the name does not resolve; junctions recurse
over their children (Python builds the comprehension left to right, so
the first failing child is the one reported). -/
def fromDictionary (m : ModelSchema) : FilterDict → Except String CompiledFilter
  | .leaf name op val field =>
    if m.attrs.contains name then .ok (.basic name op val field)
    else .error name
  | .orJ subs =>
    match fromDictList m subs with
    | .error e => .error e
    | .ok fs => .ok (.disj fs)
  | .andJ subs =>
    match fromDictList m subs with
    | .error e => .error e
    | .ok fs => .ok (.conj fs)

/-- Left-to-right compilation of a list of filter dictionaries,
stopping at the first `UnknownField`. -/
def fromDictList (m : ModelSchema) : List FilterDict → Except String (List CompiledFilter)
  | [] => .ok []
  | d :: ds =>
    match fromDictionary m d with
    | .error e => .error e
    | .ok f =>
      match fromDictList m ds with
      | .error e => .error e
      | .ok fs => .ok (f :: fs)

end

/-- The operator table `OPERATORS` (search.py lines 100-148), reduced to
each operator's arity — which is all `create_operation` inspects before
applying it. -/
def opArity (op : String) : Option Nat :=
  if op ∈ ["is_null", "is_not_null"] then some 1
  else if op ∈ ["==", "eq", "equals", "equal_to", "!=", "ne", "neq", "not_equal_to",
    "does_not_equal", ">", "gt", "<", "lt", ">=", "ge", "gte", "geq", "<=", "le",
    "lte", "leq", "<<", "<<=", ">>", ">>=", "<>", "&&", "ilike", "like", "not_like",
    "in", "not_in", "to_tsquery", "plainto_tsquery"] then some 2
  else if op ∈ ["@>", "<@", "!@>", "!<@", "has", "any"] then some 3
  else none

/-- The right-hand operand passed to an operator: a literal from `val`,
or the sibling column resolved from `field`. -/
inductive OpArg where
  | lit (v : JVal)
  | col (name : String)
deriving DecidableEq

/-- A compiled backend predicate, kept syntactic (the SQLAlchemy
expression tree produced by the operator lambdas and `and_`/`or_`).
The nested filter of the 3-argument `has`/`any` operators is kept
unexpanded: its failures (`_sub_operator` on a malformed or unresolved
nested description) raise `TypeError`/`AttributeError`, which land in
the same generic 400 as every non-`UnknownField` failure, and no claim
touches them. -/
inductive Predicate where
  | app1 (field op : String)
  | app2 (field op : String) (arg : OpArg)
  | app3 (field op : String) (arg : OpArg)
  | conj (subs : List Predicate)
  | disj (subs : List Predicate)

/-- Failure modes of `create_operation`/`create_filter` (search.py lines
282-356), all of which `search` reports as the generic 400. -/
inductive CreateErr where
  | keyError
  | comparisonToNull
  | attributeError
deriving DecidableEq

/-- `create_operation` (search.py lines 282-329): `KeyError` when the
operator is not in the table, `AttributeError` when the field is not on
the model, success for 1-argument operators, `ComparisonToNull` when a
2/3-argument operator receives no argument. -/
def createOperation (m : ModelSchema) (fieldname op : String) (argument : Option OpArg) :
    Except CreateErr Predicate :=
  match opArity op with
  | none => .error .keyError
  | some numargs =>
    if ¬ m.attrs.contains fieldname then .error .attributeError
    else if numargs = 1 then .ok (.app1 fieldname op)
    else
      match argument with
      | none => .error .comparisonToNull
      | some a => if numargs = 2 then .ok (.app2 fieldname op a) else .ok (.app3 fieldname op a)

mutual

/-- `create_filter` (search.py lines 332-356): a basic filter resolves
`otherfield` (when truthy) to a sibling column — `getattr` raising
`AttributeError` when absent — and calls `create_operation`; junctions
combine their recursively created children. -/
def createFilter (m : ModelSchema) : CompiledFilter → Except CreateErr Predicate
  | .basic fname op arg other =>
    match other with
    | some o =>
      if o ≠ "" then
        if m.attrs.contains o then createOperation m fname op (some (.col o))
        else .error .attributeError
      else createOperation m fname op (arg.map .lit)
    | none => createOperation m fname op (arg.map .lit)
  | .conj subs =>
    match createFilterList m subs with
    | .error e => .error e
    | .ok ps => .ok (.conj ps)
  | .disj subs =>
    match createFilterList m subs with
    | .error e => .error e
    | .ok ps => .ok (.disj ps)

/-- Left-to-right `create_filter` over a list of compiled filters. -/
def createFilterList (m : ModelSchema) : List CompiledFilter → Except CreateErr (List Predicate)
  | [] => .ok []
  | f :: fs =>
    match createFilter m f with
    | .error e => .error e
    | .ok p =>
      match createFilterList m fs with
      | .error e => .error e
      | .ok ps => .ok (p :: ps)

end

/-- The filter phase of `search` (search.py lines 398-409): compile all
filter dictionaries (`Filter.from_dictionary`) and then all predicates
(`create_filter`); an `UnknownField` exception becomes a 400 whose
detail names the field, any other exception becomes the generic 400
"Unable to construct query"; the predicates (the filtered query) exist
only when everything compiled. -/
def searchFilters (m : ModelSchema) (filters : List FilterDict) :
    Except ErrResp (List Predicate) :=
  match fromDictList m filters with
  | .error name =>
    .error ⟨400, "Invalid filter object: No such field \"" ++ name ++ "\""⟩
  | .ok fs =>
    match createFilterList m fs with
    | .error _ => .error ⟨400, "Unable to construct query"⟩
    | .ok ps => .ok ps

mutual

/-- Names of the filter leaves that do not resolve on the model, in the
traversal order of `Filter.from_dictionary`. -/
def unresolvedLeafNames (m : ModelSchema) : FilterDict → List String
  | .leaf name _ _ _ => if m.attrs.contains name then [] else [name]
  | .orJ subs => unresolvedLeafNamesList m subs
  | .andJ subs => unresolvedLeafNamesList m subs

/-- Unresolved leaf names of a list of filter dictionaries. -/
def unresolvedLeafNamesList (m : ModelSchema) : List FilterDict → List String
  | [] => []
  | d :: ds => unresolvedLeafNames m d ++ unresolvedLeafNamesList m ds

end

mutual

/-- When `Filter.from_dictionary` raises `UnknownField(name)`, `name`
really is the name of an unresolved leaf of the description. -/
theorem fromDictionary_error_sound (m : ModelSchema) (d : FilterDict) (name : String)
    (h : fromDictionary m d = .error name) : name ∈ unresolvedLeafNames m d := by
  cases d with
  | leaf n op val field =>
    simp only [fromDictionary] at h
    by_cases hc : m.attrs.contains n
    · rw [if_pos hc] at h
      cases h
    · rw [if_neg hc] at h
      cases h
      simp only [unresolvedLeafNames]
      rw [if_neg hc]
      simp
  | orJ subs =>
    simp only [fromDictionary] at h
    split at h
    · cases h
      simpa [unresolvedLeafNames] using
        fromDictList_error_sound m subs name (by assumption)
    · cases h
  | andJ subs =>
    simp only [fromDictionary] at h
    split at h
    · cases h
      simpa [unresolvedLeafNames] using
        fromDictList_error_sound m subs name (by assumption)
    · cases h

/-- List version of `fromDictionary_error_sound`. -/
theorem fromDictList_error_sound (m : ModelSchema) (ds : List FilterDict) (name : String)
    (h : fromDictList m ds = .error name) : name ∈ unresolvedLeafNamesList m ds := by
  cases ds with
  | nil => simp [fromDictList] at h
  | cons d ds =>
    simp only [fromDictList] at h
    split at h
    · cases h
      exact List.mem_append_left _
        (fromDictionary_error_sound m d name (by assumption))
    · split at h
      · cases h
        exact List.mem_append_right _
          (fromDictList_error_sound m ds name (by assumption))
      · cases h

end

mutual

/-- When the description has an unresolved leaf,
`Filter.from_dictionary` raises `UnknownField`. -/
theorem fromDictionary_error_exists (m : ModelSchema) (d : FilterDict)
    (h : unresolvedLeafNames m d ≠ []) : ∃ name, fromDictionary m d = .error name := by
  cases d with
  | leaf n op val field =>
    refine ⟨n, ?_⟩
    simp only [unresolvedLeafNames] at h
    by_cases hc : m.attrs.contains n
    · rw [if_pos hc] at h
      exact absurd rfl h
    · simp only [fromDictionary]
      rw [if_neg hc]
  | orJ subs =>
    obtain ⟨name, hn⟩ := fromDictList_error_exists m subs
      (by simpa [unresolvedLeafNames] using h)
    exact ⟨name, by simp [fromDictionary, hn]⟩
  | andJ subs =>
    obtain ⟨name, hn⟩ := fromDictList_error_exists m subs
      (by simpa [unresolvedLeafNames] using h)
    exact ⟨name, by simp [fromDictionary, hn]⟩

/-- List version of `fromDictionary_error_exists`. -/
theorem fromDictList_error_exists (m : ModelSchema) (ds : List FilterDict)
    (h : unresolvedLeafNamesList m ds ≠ []) :
    ∃ name, fromDictList m ds = .error name := by
  cases ds with
  | nil => exact absurd (by simp [unresolvedLeafNamesList]) h
  | cons d ds =>
    cases hd : fromDictionary m d with
    | error e => exact ⟨e, by simp [fromDictList, hd]⟩
    | ok f =>
      have hde : unresolvedLeafNames m d = [] := by
        by_contra hne
        obtain ⟨n, hn⟩ := fromDictionary_error_exists m d hne
        rw [hd] at hn
        cases hn
      have htail : unresolvedLeafNamesList m ds ≠ [] := by
        simpa [unresolvedLeafNamesList, hde] using h
      obtain ⟨name, hn⟩ := fromDictList_error_exists m ds htail
      exact ⟨name, by simp [fromDictList, hd, hn]⟩

end

/-- C4.  Whenever some leaf of the request's filter description has a
name that does not resolve to a field or relationship of the queried
model, the filter phase of `search` fails with the 400 `BadRequest`
whose detail names an offending leaf (the first one hit), and no query
is produced. -/
theorem claim_C4_unknown_filter_field (m : ModelSchema) (filters : List FilterDict)
    (h : unresolvedLeafNamesList m filters ≠ []) :
    ∃ name, name ∈ unresolvedLeafNamesList m filters ∧
      searchFilters m filters =
        .error ⟨400, "Invalid filter object: No such field \"" ++ name ++ "\""⟩ ∧
      ∀ q, searchFilters m filters ≠ .ok q := by
  obtain ⟨name, herr⟩ := fromDictList_error_exists m filters h
  refine ⟨name, fromDictList_error_sound m filters name herr, ?_, ?_⟩
  · simp [searchFilters, herr]
  · intro q hq
    simp [searchFilters, herr] at hq

/-- The `Person` model of the specification's scenario: fields `id`,
`name`, `age` and a to-many relationship `articles`. -/
def personSchema : ModelSchema := ⟨["id", "name", "age", "articles"]⟩

/-- Witness for C4: filtering `Person` on the unknown field `bogus`
(a `gt`-style leaf) yields the 400 whose detail names `bogus`. -/
theorem claim_C4_unknown_filter_field_witness :
    unresolvedLeafNamesList personSchema
      [.leaf "bogus" "gt" (some (.jnum 18)) none] ≠ [] ∧
    ∃ name, name ∈ unresolvedLeafNamesList personSchema
        [.leaf "bogus" "gt" (some (.jnum 18)) none] ∧
      searchFilters personSchema [.leaf "bogus" "gt" (some (.jnum 18)) none] =
        .error ⟨400, "Invalid filter object: No such field \"" ++ name ++ "\""⟩ ∧
      ∀ q, searchFilters personSchema [.leaf "bogus" "gt" (some (.jnum 18)) none] ≠ .ok q :=
  ⟨by decide, claim_C4_unknown_filter_field personSchema
    [.leaf "bogus" "gt" (some (.jnum 18)) none] (by decide)⟩

/-! ## Sort resolution (`search.py`, lines 411-436) -/

/-- Schema database for sort-path resolution: `models` maps a model name
to its attribute schema; `relTargets` maps a `(model, relationship)`
pair to the target model name.

`relTargets` stands in for `get_related_model`, which lives in
`helpers.py` — a module not among these sources.  Modelled from the
spec: the Schema Introspector's `targetTypeOf(type, relationshipName)`
yields the relationship's target type per registered relationship, and
yields nothing when the name is not a relationship of the type. -/
structure SchemaDb where
  models : List (String × ModelSchema)
  relTargets : List ((String × String) × String)

/-- Attribute names of a model in the database (empty for an unknown
model name). -/
def modelAttrs (db : SchemaDb) (model : String) : List String :=
  match db.models.lookup model with
  | some m => m.attrs
  | none => []

/-- Modelled from the spec: `get_related_model` (`helpers.py`, absent
from these sources) as the Schema Introspector's `targetTypeOf`. -/
def getRelatedModel (db : SchemaDb) (model rel : String) : Option String :=
  db.relTargets.lookup (model, rel)

/-- Failure modes of resolving one sort key in `search`.

`badRequest detail` is the `BadRequest` raised by `get_field`
(search.py lines 411-415) when `getattr` fails on the terminal field;
the dispatcher renders it as a 400 response, the same exception type
and class of response the filter phase uses for `UnknownField`.

`unhandledRelation seg` marks a dotted path whose non-terminal segment
`seg` yields no related model: `search` passes the failed lookup
straight to `aliased`/`join` (lines 424-428) with no surrounding
handler, so the resulting exception is never converted into that 400
category. -/
inductive SortErr where
  | badRequest (detail : String)
  | unhandledRelation (segment : String)
deriving DecidableEq

/-- The per-key body of the sort loop of `search` (search.py lines
421-432), with the dotted `field_name` already split into its
non-terminal segments and terminal field: non-terminal segments walk
`get_related_model` (introducing a join alias), and the terminal
segment is resolved by `get_field`, whose failed `getattr` becomes
`BadRequest('Invalid sorting: No such field <name>')`.  Success returns
the (aliased) model name and field to order by. -/
def resolveSortKey (db : SchemaDb) (model : String) :
    List String → String → Except SortErr (String × String)
  | [], f =>
    if (modelAttrs db model).contains f then .ok (model, f)
    else .error (.badRequest ("Invalid sorting: No such field " ++ f))
  | s :: rest, f =>
    match getRelatedModel db model s with
    | some tgt => resolveSortKey db tgt rest f
    | none => .error (.unhandledRelation s)

/-- How a sort failure reaches the client: `BadRequest` is caught by the
dispatcher and rendered as a 400 response with its detail
(`FetchView.dispatch_request`, base.py lines 1002-1009); the unhandled
relation failure matches none of those handlers, so it produces no
400-category response. -/
def sortErrResponse : SortErr → Option ErrResp
  | .badRequest d => some ⟨400, d⟩
  | .unhandledRelation _ => none

/-- Walking the non-terminal segments of a sort path through the schema
(the model reached by the chain of relationship joins, when every
segment resolves). -/
def walkPath (db : SchemaDb) (model : String) : List String → Option String
  | [] => some model
  | s :: rest =>
    match getRelatedModel db model s with
    | some tgt => walkPath db tgt rest
    | none => none

/-- The `Article` model of the specification's scenario. -/
def articleSchema : ModelSchema := ⟨["id", "title", "author", "comments"]⟩

/-- A two-model schema database: `person` with its to-many `articles`,
`article` with its to-one `author`. -/
def exampleDb : SchemaDb :=
  { models := [("person", personSchema), ("article", articleSchema)]
    relTargets := [(("person", "articles"), "article"), (("article", "author"), "person")] }

/-- C5 counterexample.  Sorting `person` by `bogus.name` — an unknown
relationship at the non-terminal segment — does not fail with the
400-category error carrying the terminal segment name that the claim
asserts for every segment: the failed relationship lookup escapes
unconverted (no `BadRequest` is raised), so no 400 of that category is
produced at all. -/
theorem claim_C5_counterexample :
    resolveSortKey exampleDb "person" ["bogus"] "name" =
      .error (.unhandledRelation "bogus") ∧
    (∀ d, resolveSortKey exampleDb "person" ["bogus"] "name" ≠
      .error (.badRequest d)) ∧
    sortErrResponse (.unhandledRelation "bogus") = none := by
  have h : resolveSortKey exampleDb "person" ["bogus"] "name" =
      .error (.unhandledRelation "bogus") := by
    rfl
  refine ⟨h, ?_, rfl⟩
  intro d hd
  rw [h] at hd
  exact SortErr.noConfusion (Except.error.inj hd)

/-- C5 as amended.  When every non-terminal segment of the sort path
resolves through the schema but the terminal segment is not a field of
the reached model, sort resolution fails like filtering does — with a
`BadRequest` rendered as a 400 response — and the detail carries the
terminal segment name; an unknown non-terminal relationship segment
instead fails without that 400 category (see the counterexample). -/
theorem claim_C5_sort_unknown_terminal (db : SchemaDb) (model : String)
    (segs : List String) (terminal : String) (reached : String)
    (hw : walkPath db model segs = some reached)
    (hf : (modelAttrs db reached).contains terminal = false) :
    resolveSortKey db model segs terminal =
      .error (.badRequest ("Invalid sorting: No such field " ++ terminal)) ∧
    sortErrResponse (.badRequest ("Invalid sorting: No such field " ++ terminal)) =
      some ⟨400, "Invalid sorting: No such field " ++ terminal⟩ := by
  refine ⟨?_, rfl⟩
  induction segs generalizing model with
  | nil =>
    simp only [walkPath, Option.some.injEq] at hw
    subst hw
    simp only [resolveSortKey]
    rw [if_neg (by rw [hf]; simp)]
  | cons s rest ih =>
    simp only [walkPath] at hw
    simp only [resolveSortKey]
    cases hg : getRelatedModel db model s with
    | some tgt =>
      rw [hg] at hw
      exact ih tgt hw
    | none =>
      rw [hg] at hw
      cases hw

/-- Witness for the amended C5: sorting `person` by `articles.bogus`
(valid relationship, unknown terminal field) yields the 400 naming
`bogus`, mirroring the repository test
`test_bad_request_on_incorrect_sorting_relationship_field`. -/
theorem claim_C5_sort_unknown_terminal_witness :
    walkPath exampleDb "person" ["articles"] = some "article" ∧
    (modelAttrs exampleDb "article").contains "bogus" = false ∧
    (resolveSortKey exampleDb "person" ["articles"] "bogus" =
      .error (.badRequest ("Invalid sorting: No such field " ++ "bogus")) ∧
    sortErrResponse (.badRequest ("Invalid sorting: No such field " ++ "bogus")) =
      some ⟨400, "Invalid sorting: No such field " ++ "bogus"⟩) :=
  ⟨by decide, by decide,
    claim_C5_sort_unknown_terminal exampleDb "person" ["articles"] "bogus" "article"
      (by decide) (by decide)⟩

/-! ## Inclusion resolution (`views/base.py`, `resources_from_path`) -/

/-- The relationship graph over live instances: `g rel i` lists the
neighbors of instance `i` along relationship `rel` — the contents of
`getattr(resource, relation)` for a to-many relationship, and the
to-one value as a zero-or-one-element list (the code adds a to-one
`None` to the next level and skips it on arrival, which is the same as
never queueing it). -/
abbrev RelGraph := String → Nat → List Nat

/-- The traversal state of `resources_from_path`: `out` holds the
resources yielded so far, `seen` the `seen` set, `next` the `nextlevel`
set under construction, and `first` the `first_time` flag. -/
structure BfsState where
  out : List Nat
  seen : List Nat
  next : List Nat
  first : Bool

/-- One level of the breadth-first loop of `resources_from_path`
(base.py lines 552-574): each resource of the level is skipped when
already seen; otherwise it is yielded (except the very first resource
processed — the traversal root), marked seen, and its neighbors along
`relation` (when a path segment remains) are queued for the next
level (`processLevel` below). -/
def queueNext (g : RelGraph) (relation : Option String) (next : List Nat) (r : Nat) :
    List Nat :=
  match relation with
  | some rel => next ++ g rel r
  | none => next

def processLevel (g : RelGraph) (relation : Option String) :
    List Nat → BfsState → BfsState
  | [], st => st
  | r :: rest, st =>
    if r ∈ st.seen then processLevel g relation rest st
    else
      processLevel g relation rest
        ⟨if st.first then st.out else st.out ++ [r], r :: st.seen,
          queueNext g relation st.next r, false⟩

/-- The outer `while nextlevel` loop of `resources_from_path` (base.py
lines 542-574), driven by the remaining path segments: each iteration
pops the next segment; once the path is exhausted, the processed level
queues no next level and the loop stops. -/
def rfpAux (g : RelGraph) : List String → List Nat → List Nat → Bool → List Nat
  | [], level, seen, first => (processLevel g none level ⟨[], seen, [], first⟩).out
  | p :: ps, level, seen, first =>
    if level.isEmpty then []
    else
      let st := processLevel g (some p) level ⟨[], seen, [], first⟩
      st.out ++ rfpAux g ps st.next st.seen st.first

/-- `resources_from_path(instance, path)` (base.py lines 504-574), with
the dotted path already split into segments: breadth-first traversal
from the singleton level `\x7binstance\x7d` with an empty `seen` set and the
`first_time` flag raised. -/
def resourcesFromPath (g : RelGraph) (inst : Nat) (path : List String) : List Nat :=
  rfpAux g path [inst] [] true

/-- `APIBase.resources_to_include(instance)` (base.py lines 1673-1697):
the union over the requested paths of the resources along each path,
collected into a set. -/
def resourcesToInclude (g : RelGraph) (paths : List (List String)) (inst : Nat) :
    Finset Nat :=
  (paths.map fun p => (resourcesFromPath g inst p).toFinset).foldr (· ∪ ·) ∅

/-- `APIBase.get_all_inclusions` over a list of primary instances
(base.py lines 1431-1432): the set-union of `resources_to_include`
across the instances. -/
def getAllInclusions (g : RelGraph) (roots : List Nat) (paths : List (List String)) :
    Finset Nat :=
  (roots.map (resourcesToInclude g paths)).foldr (· ∪ ·) ∅

/-- The `seen` set only grows across one level, and everything yielded
by the level is fresh: the output extends by a duplicate-free block of
resources that were unseen on entry and are seen on exit. -/
theorem processLevel_spec (g : RelGraph) (relation : Option String)
    (level : List Nat) (st : BfsState) :
    (∀ x ∈ st.seen, x ∈ (processLevel g relation level st).seen) ∧
    (∃ l, (processLevel g relation level st).out = st.out ++ l ∧ l.Nodup ∧
      (∀ x ∈ l, x ∉ st.seen) ∧
      (∀ x ∈ l, x ∈ (processLevel g relation level st).seen)) := by
  induction level generalizing st with
  | nil =>
    refine ⟨fun x hx => hx, [], by simp [processLevel], by simp, by simp, by simp⟩
  | cons r rest ih =>
    by_cases hr : r ∈ st.seen
    · have heq : processLevel g relation (r :: rest) st = processLevel g relation rest st := by
        simp only [processLevel]
        rw [if_pos hr]
      rw [heq]
      exact ih st
    · set st' : BfsState :=
        ⟨if st.first then st.out else st.out ++ [r], r :: st.seen,
          queueNext g relation st.next r, false⟩ with hst'
      have heq : processLevel g relation (r :: rest) st = processLevel g relation rest st' := by
        simp only [processLevel]
        rw [if_neg hr]
      rw [heq]
      obtain ⟨hmono, l', hout, hnd, hfresh, hseen⟩ := ih st'
      have hmono' : ∀ x ∈ st.seen, x ∈ (processLevel g relation rest st').seen := by
        intro x hx
        exact hmono x (by simp [hst', List.mem_cons]; right; exact hx)
      have hrseen : r ∈ (processLevel g relation rest st').seen :=
        hmono r (by simp [hst'])
      refine ⟨hmono', ?_⟩
      by_cases hf : st.first
      · refine ⟨l', ?_, hnd, ?_, hseen⟩
        · rw [hout]
          simp [hst', hf]
        · intro x hx
          have := hfresh x hx
          simp only [hst', List.mem_cons] at this
          intro hmem
          exact this (Or.inr hmem)
      · refine ⟨r :: l', ?_, ?_, ?_, ?_⟩
        · rw [hout]
          simp [hst', hf]
        · refine List.nodup_cons.mpr ⟨?_, hnd⟩
          intro hmem
          have := hfresh r hmem
          simp [hst'] at this
        · intro x hx
          rcases List.mem_cons.mp hx with rfl | hx'
          · exact hr
          · intro hmem
            exact hfresh x hx' (by simp [hst', List.mem_cons]; right; exact hmem)
        · intro x hx
          rcases List.mem_cons.mp hx with rfl | hx'
          · exact hrseen
          · exact hseen x hx'

/-- Nothing yielded by the breadth-first loop was in the `seen` set it
started from, and the yield sequence is duplicate-free. -/
theorem rfpAux_spec (g : RelGraph) (path : List String) :
    ∀ (level seen : List Nat) (first : Bool),
      (∀ x ∈ rfpAux g path level seen first, x ∉ seen) ∧
      (rfpAux g path level seen first).Nodup := by
  induction path with
  | nil =>
    intro level seen first
    obtain ⟨hmono, l, hout, hnd, hfresh, hseen⟩ :=
      processLevel_spec g none level ⟨[], seen, [], first⟩
    have heq : rfpAux g [] level seen first = l := by
      simp only [rfpAux]
      rw [hout]
      simp
    rw [heq]
    exact ⟨hfresh, hnd⟩
  | cons p ps ih =>
    intro level seen first
    by_cases hl : level.isEmpty
    · constructor <;> simp [rfpAux, hl]
    · obtain ⟨hmono, l, hout, hnd, hfresh, hseen⟩ :=
        processLevel_spec g (some p) level ⟨[], seen, [], first⟩
      have heq : rfpAux g (p :: ps) level seen first =
          (processLevel g (some p) level ⟨[], seen, [], first⟩).out ++
            rfpAux g ps (processLevel g (some p) level ⟨[], seen, [], first⟩).next
              (processLevel g (some p) level ⟨[], seen, [], first⟩).seen
              (processLevel g (some p) level ⟨[], seen, [], first⟩).first := by
        simp only [rfpAux]
        rw [if_neg hl]
      obtain ⟨ih1, ih2⟩ := ih (processLevel g (some p) level ⟨[], seen, [], first⟩).next
        (processLevel g (some p) level ⟨[], seen, [], first⟩).seen
        (processLevel g (some p) level ⟨[], seen, [], first⟩).first
      constructor
      · intro x hx
        rw [heq] at hx
        rcases List.mem_append.mp hx with hx | hx
        · rw [hout] at hx
          simp only [List.nil_append] at hx
          exact hfresh x hx
        · intro hmem
          exact ih1 x hx (hmono x hmem)
      · rw [heq]
        refine List.Nodup.append ?_ ih2 ?_
        · rw [hout]
          simpa using hnd
        · intro x hx hy
          rw [hout] at hx
          simp only [List.nil_append] at hx
          exact ih1 x hy (hseen x hx)

/-- C6 as amended.  A traversal never yields the root instance it
started from, and never yields the same instance twice; combined
results are further collected into sets.  (The claim's stronger form —
that no root of the whole request ever appears — fails when one root is
reachable from another root; see the counterexample.) -/
theorem claim_C6_inclusion_no_root_no_dup (g : RelGraph) (inst : Nat)
    (path : List String) :
    inst ∉ resourcesFromPath g inst path ∧ (resourcesFromPath g inst path).Nodup := by
  cases path with
  | nil =>
    have heq : resourcesFromPath g inst [] = [] := by
      simp [resourcesFromPath, rfpAux, processLevel]
    rw [heq]
    simp
  | cons p ps =>
    have hst : processLevel g (some p) [inst] ⟨[], [], [], true⟩ =
        ⟨[], [inst], g p inst, false⟩ := by
      simp [processLevel, queueNext]
    have heq : resourcesFromPath g inst (p :: ps) =
        rfpAux g ps (g p inst) [inst] false := by
      show rfpAux g (p :: ps) [inst] [] true = _
      simp only [rfpAux]
      rw [if_neg (by simp), hst]
      simp
    obtain ⟨h1, h2⟩ := rfpAux_spec g ps (g p inst) [inst] false
    rw [heq]
    exact ⟨fun hx => h1 inst hx (by simp), h2⟩

/-- A two-instance graph: instance 1 points at instance 2 along the
relationship `rel`; instance 2 has no neighbors. -/
def pairGraph : RelGraph := fun rel i =>
  if rel = "rel" ∧ i = 1 then [2] else []

/-- C6 counterexample.  With primary instances 1 and 2 and the single
inclusion path `rel`, instance 2 — a root — appears in the combined
inclusion result, because it is reachable from the other root: the
claim that the result never contains any root instance fails. -/
theorem claim_C6_counterexample :
    (2 : Nat) ∈ ([1, 2] : List Nat) ∧
    2 ∈ getAllInclusions pairGraph [1, 2] [["rel"]] :=
  ⟨by decide, by decide⟩

/-! ## Relationship mutation (`views/relationships.py`) -/

/-- One linkage object of the request body's `data` array: the values
of `rel.get('type')` and `rel.get('id')`, either possibly missing.
Identifiers are the primary-key values, naturals in this embedding. -/
structure LinkObj where
  type? : Option String
  id? : Option Nat
deriving DecidableEq

/-- Outcome of a relationship mutation request: `204 No Content` on
success, a single error response, or a multi-error response
(`errors_response(status, errors)`) carrying one detail per error. -/
inductive RelResp where
  | noContent
  | err (e : ErrResp)
  | errs (status : Nat) (details : List String)
deriving DecidableEq

/-- The entry loop of `RelationshipAPI.post` (relationships.py lines
136-157) over the live to-many collection: each entry is checked in
order (`type` present, `id` present, type equals the related model's
collection name, referenced instance exists in the session `db`) and —
its checks passing — immediately appended to the live collection unless
already present.  An entry failing a check returns its error response
at once; the collection then keeps every append made for the earlier
entries of the batch.  Returns the first error (if any) and the live
collection at return time. -/
def postLoop (relatedType : String) (db : List Nat) :
    List LinkObj → List Nat → Option ErrResp × List Nat
  | [], coll => (none, coll)
  | e :: rest, coll =>
    match e.type? with
    | none => (some ⟨400, "Must specify correct data type"⟩, coll)
    | some t =>
      match e.id? with
      | none => (some ⟨400, "Must specify resource ID"⟩, coll)
      | some i =>
        if t ≠ relatedType then
          (some ⟨409, "Type must be " ++ relatedType ++ ", not " ++ t⟩, coll)
        else if i ∉ db then
          (some ⟨404, "No object of type " ++ t ++ " found with ID " ++ toString i⟩, coll)
        else
          postLoop relatedType db rest (if i ∈ coll then coll else coll ++ [i])

/-- `RelationshipAPI.post` (relationships.py lines 104-165) on the
relationship state.  The loop above mutates the live collection; only
when it finishes without error are `session.flush()` and
`session.commit()` reached (lines 159-164), making the live collection
durable and answering 204.  On an error response the commit is never
reached, and the request-scoped transaction is discarded (the session
rollback of the request teardown; spec §5's
transaction-per-request contract — the teardown itself is outside these
sources), so the durable collection stays as it was.  Returns the
response, the durable (committed) collection, and the live working
collection at return time. -/
def postRelationship (relatedType : String) (db : List Nat) (entries : List LinkObj)
    (coll : List Nat) : RelResp × List Nat × List Nat :=
  match postLoop relatedType db entries coll with
  | (some e, working) => (.err e, coll, working)
  | (none, working) => (.noContent, working, working)

/-- C8 counterexample.  Batch `[(article, 2), (article, 3)]` against a
database holding articles 1 and 2 and a collection `[1]`: entry 2 fails
the not-found check, so the request errors — yet entry 1, validated
earlier in the same batch, has already been applied to the live
relationship collection (`[1, 2]` at return time, versus `[1]` before
the request).  Validation of the entire batch does not precede
application; only the commit boundary keeps the durable collection at
`[1]`. -/
theorem claim_C8_counterexample :
    (postRelationship "article" [1, 2]
      [⟨some "article", some 2⟩, ⟨some "article", some 3⟩] [1]).1 =
      .err ⟨404, "No object of type article found with ID 3"⟩ ∧
    (postRelationship "article" [1, 2]
      [⟨some "article", some 2⟩, ⟨some "article", some 3⟩] [1]).2.2 = [1, 2] ∧
    (2 : Nat) ∉ ([1] : List Nat) :=
  ⟨by decide, by decide, by decide⟩

/-- C8 as amended.  When any entry of an append-to-many batch fails its
checks, the request answers with that entry's error and the durable
(committed) collection is unchanged — the commit is only reached after
every entry passed — even though entries validated earlier in the batch
have already been applied to the live in-memory collection. -/
theorem claim_C8_no_partial_commit (relatedType : String) (db : List Nat)
    (entries : List LinkObj) (coll : List Nat) (e : ErrResp)
    (h : (postRelationship relatedType db entries coll).1 = .err e) :
    (postRelationship relatedType db entries coll).2.1 = coll := by
  unfold postRelationship at h ⊢
  cases hl : postLoop relatedType db entries coll with
  | mk fst snd =>
    cases fst with
    | none =>
      rw [hl] at h
      cases h
    | some e' =>
      rfl

/-- Witness for the amended C8 at the counterexample's input. -/
theorem claim_C8_no_partial_commit_witness :
    (postRelationship "article" [1, 2]
      [⟨some "article", some 2⟩, ⟨some "article", some 3⟩] [1]).1 =
      .err ⟨404, "No object of type article found with ID 3"⟩ ∧
    (postRelationship "article" [1, 2]
      [⟨some "article", some 2⟩, ⟨some "article", some 3⟩] [1]).2.1 = [1] :=
  ⟨by decide, claim_C8_no_partial_commit "article" [1, 2]
    [⟨some "article", some 2⟩, ⟨some "article", some 3⟩] [1]
    ⟨404, "No object of type article found with ID 3"⟩ (by decide)⟩

/-- C9.  Append-to-many is idempotent on already-present members:
appending an identifier already in the collection — once, or twice
within one batch — leaves both the durable and the live collection
unchanged, and the request still succeeds with 204. -/
theorem claim_C9_append_idempotent (relatedType : String) (db coll : List Nat)
    (i : Nat) (hdb : i ∈ db) (hcoll : i ∈ coll) :
    postRelationship relatedType db [⟨some relatedType, some i⟩] coll =
      (.noContent, coll, coll) ∧
    postRelationship relatedType db
      [⟨some relatedType, some i⟩, ⟨some relatedType, some i⟩] coll =
      (.noContent, coll, coll) := by
  constructor <;>
    simp [postRelationship, postLoop, hdb, hcoll]

/-- Witness for C9 at `db = [1, 2]`, `coll = [2]`, `i = 2`. -/
theorem claim_C9_append_idempotent_witness :
    (2 : Nat) ∈ ([1, 2] : List Nat) ∧ (2 : Nat) ∈ ([2] : List Nat) ∧
    (postRelationship "article" [1, 2] [⟨some "article", some 2⟩] [2] =
      (.noContent, [2], [2]) ∧
    postRelationship "article" [1, 2]
      [⟨some "article", some 2⟩, ⟨some "article", some 2⟩] [2] =
      (.noContent, [2], [2])) :=
  ⟨by decide, by decide,
    claim_C9_append_idempotent "article" [1, 2] [2] 2 (by decide) (by decide)⟩

/-- The entry scan of `RelationshipAPI.delete` (relationships.py lines
312-330): each entry in order is checked (`type` present, `id` present,
type equals the related collection's name — an immediate 400/409 on
failure) and resolved against the session `db`, unresolvable
identifiers going to `not_found` and resolved ones to `to_remove`
(both in batch order). -/
def deleteScan (relatedType : String) (db : List Nat) :
    List LinkObj → Except ErrResp (List Nat × List Nat)
  | [] => .ok ([], [])
  | e :: rest =>
    match e.type? with
    | none => .error ⟨400, "Must specify correct data type"⟩
    | some t =>
      match e.id? with
      | none => .error ⟨400, "Must specify resource ID"⟩
      | some i =>
        if t ≠ relatedType then
          .error ⟨409, "Conflicting type: expected " ++ relatedType ++ " but got type "
            ++ t ++ " for linkage object with ID " ++ toString i⟩
        else
          match deleteScan relatedType db rest with
          | .error err => .error err
          | .ok (nf, tr) =>
            if i ∈ db then .ok (nf, i :: tr) else .ok (i :: nf, tr)

/-- `RelationshipAPI.delete` (relationships.py lines 275-352) on the
relationship state.  A disabled capability answers 403.  After a clean
scan, a non-empty `not_found` answers the multi-error 404 listing every
missing identifier.  Otherwise every resolved instance is removed from
the collection when present (`relation.remove`, whose `ValueError` for
absent members is silently swallowed — `List.erase` is exactly
remove-first-occurrence-if-present).  `was_deleted` embeds
`len(session.dirty) > 0`: SQLAlchemy's instrumented collection fires
the remove event — marking the owner dirty — before the underlying
`list.remove` can raise, so the owner is dirty exactly when at least
one removal was attempted, present or not (the repository test
`test_to_many_delete_nonexistent` relies on this: a batch whose member
is absent still answers 204).  `session.commit()` runs before the
`was_deleted` check, so the removals are durable even on the final
404 path.  Returns the response, the durable collection, and the
reported `was_deleted` flag. -/
def deleteRelationship (allowDelete : Bool) (relatedType : String) (db : List Nat)
    (entries : List LinkObj) (coll : List Nat) : RelResp × List Nat × Bool :=
  if allowDelete = false then
    (.err ⟨403, "Not allowed to delete from a to-many relationship"⟩, coll, false)
  else
    match deleteScan relatedType db entries with
    | .error e => (.err e, coll, false)
    | .ok (notFound, toRemove) =>
      if notFound ≠ [] then
        (.errs 404 (notFound.map fun i =>
          "No resource of type " ++ relatedType ++ " and ID " ++ toString i ++ " found"),
          coll, false)
      else
        let newColl := toRemove.foldl (fun c i => c.erase i) coll
        let wasDeleted := !toRemove.isEmpty
        if wasDeleted = false then
          (.err ⟨404, "There was no instance to delete"⟩, newColl, wasDeleted)
        else
          (.noContent, newColl, wasDeleted)

/-- C7 counterexample.  Two inputs against `db = [1, 2]`,
`coll = [1]`, deletion enabled: (a) the batch `[(article, 2)]` — whose
only identifier resolves but is not in the collection — succeeds with
204 and leaves the collection unchanged, yet reports
`was_deleted = true`, not the "no change" the claim asserts; (b) the
empty batch — vacuously, nothing in it is present — does not succeed at
all: it answers the 404 error "There was no instance to delete". -/
theorem claim_C7_counterexample :
    deleteRelationship true "article" [1, 2] [⟨some "article", some 2⟩] [1] =
      (.noContent, [1], true) ∧
    deleteRelationship true "article" [1, 2] [] [1] =
      (.err ⟨404, "There was no instance to delete"⟩, [1], false) :=
  ⟨by decide, by decide⟩

/-- A clean scan: when every entry carries the related type and an
identifier resolving in `db`, the scan finds nothing missing and lists
exactly the batch identifiers to remove. -/
theorem deleteScan_all_resolved (relatedType : String) (db : List Nat) :
    ∀ (entries : List LinkObj) (ids : List Nat),
      entries.map (·.type?) = ids.map (fun _ => some relatedType) →
      entries.map (·.id?) = ids.map some →
      (∀ i ∈ ids, i ∈ db) →
      deleteScan relatedType db entries = .ok ([], ids) := by
  intro entries
  induction entries with
  | nil =>
    intro ids htypes hids _
    cases ids with
    | nil => rfl
    | cons i is => cases htypes
  | cons e rest ih =>
    intro ids htypes hids hdb
    cases ids with
    | nil => cases htypes
    | cons i is =>
      simp only [List.map_cons, List.cons.injEq] at htypes hids
      have hrest := ih is htypes.2 hids.2 (fun j hj => hdb j (List.mem_cons_of_mem _ hj))
      simp only [deleteScan, htypes.1, hids.1, hrest]
      rw [if_neg (by simp)]
      simp [hdb i (List.mem_cons_self i is)]

/-- Erasing identifiers that are all absent leaves the collection
untouched. -/
theorem foldl_erase_of_absent (coll : List Nat) :
    ∀ ids : List Nat, (∀ i ∈ ids, i ∉ coll) →
      ids.foldl (fun c i => c.erase i) coll = coll := by
  intro ids
  induction ids generalizing coll with
  | nil => intro _; rfl
  | cons i is ih =>
    intro habs
    have h1 : coll.erase i = coll :=
      List.erase_of_not_mem (habs i (List.mem_cons_self i is))
    simp only [List.foldl_cons, h1]
    exact ih coll (fun j hj => habs j (List.mem_cons_of_mem _ hj))

/-- C7 as amended.  For a non-empty remove batch whose every entry
carries the related type and an identifier resolving to an existing
instance, the request succeeds with 204 and the durable collection is
the one with those identifiers removed where present — identifiers not
currently in the collection are silently ignored —  but the reported
`was_deleted` flag is `true` whenever the batch is non-empty, even when
nothing was actually present (the collection did not change); and when
the batch is empty the request instead fails with the 404
"There was no instance to delete". -/
theorem claim_C7_remove_from_many (relatedType : String) (db coll : List Nat)
    (entries : List LinkObj) (ids : List Nat)
    (htypes : entries.map (·.type?) = ids.map (fun _ => some relatedType))
    (hids : entries.map (·.id?) = ids.map some)
    (hdb : ∀ i ∈ ids, i ∈ db) :
    (entries ≠ [] →
      deleteRelationship true relatedType db entries coll =
        (.noContent, ids.foldl (fun c i => c.erase i) coll, true)) ∧
    ((∀ i ∈ ids, i ∉ coll) →
      ids.foldl (fun c i => c.erase i) coll = coll) ∧
    (entries = [] →
      deleteRelationship true relatedType db entries coll =
        (.err ⟨404, "There was no instance to delete"⟩, coll, false)) := by
  have hscan := deleteScan_all_resolved relatedType db entries ids htypes hids hdb
  refine ⟨?_, foldl_erase_of_absent coll ids, ?_⟩
  · intro hne
    have hidsne : ids ≠ [] := by
      intro h
      subst h
      simp only [List.map_nil, List.map_eq_nil_iff] at hids
      exact hne hids
    simp [deleteRelationship, hscan, List.isEmpty_iff, hidsne]
  · intro he
    subst he
    have : ids = [] := by
      simpa using hids.symm
    subst this
    rfl

/-- Witness for the amended C7 at `db = [1, 2]`, `coll = [1]` and the
single-entry batch for article 2 (absent from the collection). -/
theorem claim_C7_remove_from_many_witness :
    ([⟨some "article", some 2⟩] : List LinkObj).map (·.type?) =
      ([2] : List Nat).map (fun _ => some "article") ∧
    ([⟨some "article", some 2⟩] : List LinkObj).map (·.id?) =
      ([2] : List Nat).map some ∧
    (∀ i ∈ ([2] : List Nat), i ∈ ([1, 2] : List Nat)) ∧
    ((([⟨some "article", some 2⟩] : List LinkObj) ≠ [] →
      deleteRelationship true "article" [1, 2] [⟨some "article", some 2⟩] [1] =
        (.noContent, ([2] : List Nat).foldl (fun c i => c.erase i) [1], true)) ∧
    ((∀ i ∈ ([2] : List Nat), i ∉ ([1] : List Nat)) →
      ([2] : List Nat).foldl (fun c i => c.erase i) [1] = [1]) ∧
    (([⟨some "article", some 2⟩] : List LinkObj) = [] →
      deleteRelationship true "article" [1, 2] [⟨some "article", some 2⟩] [1] =
        (.err ⟨404, "There was no instance to delete"⟩, [1], false))) :=
  ⟨by decide, by decide, by decide,
    claim_C7_remove_from_many "article" [1, 2] [1] [⟨some "article", some 2⟩] [2]
      (by decide) (by decide) (by decide)⟩
